import Mathlib

/-!
Verification of the SafePath Navigator route safety-scoring engine.

The development shallowly embeds the scoring, route-generation, blending and
recommendation logic of the repository:

* `safetyUtils.js` — `calculateSafetyScore`, `generateMockRoutes` and the mock
  signal stores (`mockCrimeData`, `mockLightingData`);
* `fbiCrimeDataService.js` — `getCrimeStatsByLocation`,
  `getCrimeStatsByCoordinates`, `getRandomWeightedValue`, the service-local
  `calculateSafetyScore` and `getSafetyRecommendations`;
* the `MapProvider` effect that blends a remote crime estimate into the
  locally computed safety score.

Numbers are embedded as exact rationals (`ℚ`).  JavaScript's
`Math.round` is `fun q => ⌊q + 1/2⌋` (round half toward positive infinity),
called `jsRound` below.  `Math.sqrt` is embedded as Mathlib's `Rat.sqrt`,
which agrees with the real square root on every square of a rational; all
concrete inputs evaluated in this file are chosen so that the distances whose
magnitude matters are squares of rationals, where the embedding is exact.
Strict-threshold comparisons `Math.sqrt d < t` are embedded as `d < t ^ 2`,
which is equivalent for `0 ≤ d` and `0 < t`.
-/

/-- JavaScript `Math.round`: rounds half toward positive infinity. -/
def jsRound (q : ℚ) : ℤ := ⌊q + 1 / 2⌋

/-- A latitude/longitude pair (`{lat, lng}` object). -/
structure Point where
  lat : ℚ
  lng : ℚ
deriving DecidableEq

/-- A crime-density signal point from `mockCrimeData`. -/
structure CrimePoint where
  lat : ℚ
  lng : ℚ
  weight : ℚ
deriving DecidableEq

/-- The `level` strings appearing in `mockLightingData`. -/
inductive LightLevel where
  | low
  | medium
  | high
deriving DecidableEq

/-- A street-lighting signal point from `mockLightingData`. -/
structure LightPoint where
  lat : ℚ
  lng : ℚ
  level : LightLevel
deriving DecidableEq

/-- The result shape of `calculateSafetyScore` (all three fields are
`Math.round`ed integers). -/
structure SafetyScore where
  overall : ℤ
  crime : ℤ
  lighting : ℤ
deriving DecidableEq

/-- `mockCrimeData` from `safetyUtils.js`, verbatim. -/
def mockCrimeData : List CrimePoint :=
  [ ⟨37.774, -122.419, 0.8⟩
  , ⟨37.775, -122.417, 0.7⟩
  , ⟨37.776, -122.418, 0.9⟩
  , ⟨37.773, -122.415, 0.5⟩
  , ⟨37.772, -122.416, 0.4⟩
  , ⟨37.771, -122.414, 0.6⟩
  , ⟨37.770, -122.413, 0.2⟩
  , ⟨37.769, -122.412, 0.1⟩
  , ⟨37.768, -122.410, 0.3⟩ ]

/-- `mockLightingData` from `safetyUtils.js`, verbatim. -/
def mockLightingData : List LightPoint :=
  [ ⟨37.774, -122.419, .low⟩
  , ⟨37.772, -122.416, .medium⟩
  , ⟨37.770, -122.413, .high⟩ ]

/-- Squared coordinate-degree distance; the source computes
`Math.sqrt` of this quantity. -/
def distSq (alat alng blat blng : ℚ) : ℚ :=
  (alat - blat) ^ 2 + (alng - blng) ^ 2

/-- Per-route-point crime contribution: the inner `mockCrimeData.forEach`
loop of `calculateSafetyScore`.  `distance < 0.01` is embedded as
`distSq < 0.01 ^ 2`; the accumulated term uses the distance itself,
embedded with `Rat.sqrt`. -/
def crimeStep (rp : Point) (acc : ℚ) (cp : CrimePoint) : ℚ :=
  let dSq := distSq rp.lat rp.lng cp.lat cp.lng
  if dSq < (0.01 : ℚ) ^ 2 then
    acc + cp.weight * (1 - Rat.sqrt dSq * 100)
  else acc

/-- The crime loop of `calculateSafetyScore`, folding `crimeStep` over the
crime store. -/
def pointCrimeScore (rp : Point) : ℚ :=
  mockCrimeData.foldl (crimeStep rp) 0

/-- The level-dependent update of the per-point lighting value: the branch
`high → max cur 0.9`, `medium → max cur 0.6`, otherwise `max cur 0.3`. -/
def updateLighting (cur : ℚ) (lp : LightPoint) : ℚ :=
  match lp.level with
  | .high => max cur 0.9
  | .medium => max cur 0.6
  | .low => max cur 0.3

/-- The lighting proximity test of `calculateSafetyScore`:
`distance < 0.005` embedded as `distSq < 0.005 ^ 2`. -/
def lightNear (rp : Point) (lp : LightPoint) : Prop :=
  distSq rp.lat rp.lng lp.lat lp.lng < (0.005 : ℚ) ^ 2

instance (rp : Point) (lp : LightPoint) : Decidable (lightNear rp lp) := by
  unfold lightNear
  infer_instance

/-- Per-route-point lighting value over an explicit store: the inner
`mockLightingData.forEach` loop of `calculateSafetyScore`, starting from the
default 0.5 (medium). -/
def pointLightingScoreOver (store : List LightPoint) (rp : Point) : ℚ :=
  store.foldl
    (fun cur lp => if lightNear rp lp then updateLighting cur lp else cur)
    0.5

/-- Per-route-point lighting value over the module-level `mockLightingData`. -/
def pointLightingScore (rp : Point) : ℚ :=
  pointLightingScoreOver mockLightingData rp

/-- `calculateSafetyScore` from `safetyUtils.js`.  The argument is
`Option (List Point)`: `none` models a `null`/`undefined` route path
(`!routePath` is truthy), `some []` the empty array. -/
def calculateSafetyScore (routePath : Option (List Point)) : SafetyScore :=
  match routePath with
  | none => ⟨0, 0, 0⟩
  | some path =>
    if path.length = 0 then ⟨0, 0, 0⟩
    else
      let crimeSum := (path.map pointCrimeScore).sum
      let lightingSum := (path.map pointLightingScore).sum
      let crimeScore : ℚ :=
        if 0 < path.length then 100 - crimeSum / (path.length : ℚ) * 100 else 50
      let lightingScore : ℚ :=
        if 0 < path.length then lightingSum / (path.length : ℚ) * 100 else 50
      let crimeClamped := max 0 (min 100 crimeScore)
      let lightingClamped := max 0 (min 100 lightingScore)
      let overallScore := crimeClamped * 0.6 + lightingClamped * 0.4
      ⟨jsRound overallScore, jsRound crimeClamped, jsRound lightingClamped⟩

/-- A route object produced by `generateMockRoutes`. -/
structure Route where
  id : String
  name : String
  duration : String
  distance : String
  path : List Point
deriving DecidableEq

/-- `generateMockRoutes` from `safetyUtils.js`: `none` models a `null`
origin/destination (`!origin || !destination` returns `[]`). -/
def generateMockRoutes (origin destination : Option Point) : List Route :=
  match origin, destination with
  | some o, some d =>
    [ { id := "route-1", name := "Recommended Route"
      , duration := "12 min", distance := "1.2 mi"
      , path :=
          [ o
          , ⟨o.lat + 0.003, o.lng + 0.002⟩
          , ⟨o.lat + 0.005, o.lng + 0.005⟩
          , ⟨d.lat - 0.002, d.lng - 0.003⟩
          , d ] }
    , { id := "route-2", name := "Alternative Route 1"
      , duration := "15 min", distance := "1.4 mi"
      , path :=
          [ o
          , ⟨o.lat + 0.002, o.lng + 0.004⟩
          , ⟨o.lat + 0.006, o.lng + 0.003⟩
          , ⟨d.lat - 0.001, d.lng - 0.005⟩
          , d ] }
    , { id := "route-3", name := "Alternative Route 2"
      , duration := "10 min", distance := "1.1 mi"
      , path :=
          [ o
          , ⟨o.lat + 0.004, o.lng + 0.001⟩
          , ⟨o.lat + 0.007, o.lng + 0.002⟩
          , ⟨d.lat - 0.003, d.lng - 0.001⟩
          , d ] }
    ]
  | _, _ => []

/-- Outcome of a JavaScript `fetch` as observed by the service code: either
the promise rejected, or it resolved to a response with an `ok` flag, a
status code, and a `json()` body that itself may parse or throw. -/
inductive FetchOutcome (α : Type) where
  | rejected (msg : String)
  | resolved (ok : Bool) (status : Nat) (json : Except String α)

namespace Fbi

/-- The `try` block of `getCrimeStatsByLocation` in `fbiCrimeDataService.js`:
a non-`ok` response throws, a failed `json()` parse throws, otherwise the
payload is returned. -/
def getCrimeStatsByLocationTry {α : Type} (f : FetchOutcome α) : Except String α :=
  match f with
  | .rejected msg => .error msg
  | .resolved ok status json =>
    if ok = false then .error ("Error fetching crime data: " ++ toString status)
    else json

/-- `getCrimeStatsByLocation`: the `catch` clause logs and returns `null`
(embedded as `none`).  The outer `Except` layer records whether an exception
escapes to the caller. -/
def getCrimeStatsByLocation {α : Type} (f : FetchOutcome α) :
    Except String (Option α) :=
  match getCrimeStatsByLocationTry f with
  | .ok data => .ok (some data)
  | .error _ => .ok none

/-- The known high-crime reference areas hard-coded in
`getRandomWeightedValue`. -/
def highCrimeAreas : List CrimePoint :=
  [ ⟨37.774, -122.419, 0.8⟩
  , ⟨37.776, -122.418, 0.9⟩
  , ⟨37.775, -122.417, 0.7⟩ ]

/-- `getRandomWeightedValue`: `rand` stands for the `Math.random()` draw in
`[0,1)`.  The closest-area scan is embedded with an `Option` accumulator in
place of the `Number.MAX_VALUE` sentinel (the first distance always beats the
sentinel); distances are compared via their squares. -/
def getRandomWeightedValue (lat lng maxValue rand : ℚ) : ℚ :=
  let closest :=
    highCrimeAreas.foldl
      (fun (acc : Option (ℚ × ℚ)) area =>
        let dSq := distSq lat lng area.lat area.lng
        match acc with
        | none => some (dSq, area.weight)
        | some (cd, cw) => if dSq < cd then some (dSq, area.weight) else some (cd, cw))
      none
  let closestDistSq := (closest.map Prod.fst).getD 0
  let closestWeight := (closest.map Prod.snd).getD 0
  let proximityFactor := max 0 (1 - Rat.sqrt closestDistSq * 100)
  let randomVariation := 0.7 + rand * 0.6
  min maxValue (maxValue * closestWeight * proximityFactor * randomVariation)

/-- The service-local `calculateSafetyScore` of `fbiCrimeDataService.js`
(crime rate to 0-100 safety score). -/
def calculateSafetyScore (crimeRate : ℚ) : ℤ :=
  max 0 (min 100 (jsRound (100 - crimeRate / 100 * 100)))

/-- The estimate object built by `getCrimeStatsByCoordinates`. -/
structure CoordEstimate where
  lat : ℚ
  lng : ℚ
  radius : ℚ
  violentCrime : ℚ
  propertyCrime : ℚ
  homicide : ℚ
  robbery : ℚ
  aggravatedAssault : ℚ
  totalCrimeRate : ℚ
  safetyScore : ℤ
deriving DecidableEq

/-- `getCrimeStatsByCoordinates`: the mock implementation draws one random
value per crime category (`rand 0` .. `rand 4`), sums them and derives a
safety score.  Its body performs no throwing operation, so the surrounding
`try`/`catch` can only resolve with the estimate; the `Except` layer records
whether an exception escapes. -/
def getCrimeStatsByCoordinates (lat lng radius : ℚ) (rand : Fin 5 → ℚ) :
    Except String (Option CoordEstimate) :=
  let violentCrime := getRandomWeightedValue lat lng 10 (rand 0)
  let propertyCrime := getRandomWeightedValue lat lng 25 (rand 1)
  let homicide := getRandomWeightedValue lat lng 1 (rand 2)
  let robbery := getRandomWeightedValue lat lng 8 (rand 3)
  let aggravatedAssault := getRandomWeightedValue lat lng 15 (rand 4)
  let totalCrimeRate :=
    violentCrime + propertyCrime + homicide + robbery + aggravatedAssault
  .ok (some
    { lat := lat, lng := lng, radius := radius
    , violentCrime := violentCrime, propertyCrime := propertyCrime
    , homicide := homicide, robbery := robbery
    , aggravatedAssault := aggravatedAssault
    , totalCrimeRate := totalCrimeRate
    , safetyScore := calculateSafetyScore totalCrimeRate })

/-- `f` resolved as one of the failure modes `getCrimeStatsByLocation`
guards against: a rejected promise, a non-`ok` HTTP status, or a `json()`
body that throws (malformed payload). -/
def fetchFailed {α : Type} : FetchOutcome α → Prop
  | .rejected _ => True
  | .resolved ok _ json => ok = false ∨ ∃ e, json = .error e

end Fbi

/-- The category rates that `getSafetyRecommendations` reads from the nested
`crimeStats` mapping; `none` models an absent key (whose `> threshold`
comparison is false in JavaScript). -/
structure CrimeCats where
  violentCrime : Option ℚ
  propertyCrime : Option ℚ
  robbery : Option ℚ
deriving DecidableEq

/-- The (non-null) argument shape of `getSafetyRecommendations`: the nested
`crimeStats` object and `totalCrimeRate` may each be absent. -/
structure RecInput where
  crimeStats : Option CrimeCats
  totalCrimeRate : Option ℚ
deriving DecidableEq

/-- JavaScript `x > t` where `x` may be `undefined` (then the comparison is
false). -/
def optGt (x : Option ℚ) (t : ℚ) : Prop :=
  match x with
  | some v => t < v
  | none => False

instance (x : Option ℚ) (t : ℚ) : Decidable (optGt x t) := by
  unfold optGt
  cases x <;> infer_instance

/-- `getSafetyRecommendations` from `fbiCrimeDataService.js`.  The `push`
sequence is embedded as list concatenation in the same order; `totalRate`
is `crimeStats.totalCrimeRate || 0`. -/
def getSafetyRecommendations (input : Option RecInput) : List String :=
  match input with
  | none => []
  | some cs =>
    let totalRate := cs.totalCrimeRate.getD 0
    let base := ["Stay aware of your surroundings at all times"]
    let specific :=
      match cs.crimeStats with
      | none => []
      | some cats =>
        (if optGt cats.violentCrime 5 then
          ["Try to travel with a companion in this area"] else [])
        ++ (if optGt cats.propertyCrime 15 then
          ["Keep valuables out of sight or securely stored"] else [])
        ++ (if optGt cats.robbery 5 then
          [ "Avoid displaying expensive items in public"
          , "Stay in well-lit areas at night"] else [])
    let tail :=
      if 40 < totalRate then
        [ "Consider alternate routes if possible"
        , "Stay on main streets and avoid shortcuts through less populated areas"]
      else if totalRate < 10 then
        ["This area generally has lower crime rates compared to surrounding areas"]
      else []
    base ++ specific ++ tail

/-- The blending step inside `MapProvider` (the Score Blender).  The source
mutates the `safetyScore` object returned by the local scorer in place
(`safetyScore.crime = ...; safetyScore.overall = ...`), so the embedding
returns both the function result and the post-call state of the `localScore`
argument: `(result, stateOfInputAfterCall)`.  The guard is the JavaScript
truthiness test `crimeData && crimeData.safetyScore` (0 is falsy). -/
def blendInPlace (localScore : SafetyScore) (crimeData : Option Fbi.CoordEstimate) :
    SafetyScore × SafetyScore :=
  match crimeData with
  | none => (localScore, localScore)
  | some cd =>
    if cd.safetyScore ≠ 0 then
      let crime' := jsRound ((localScore.crime : ℚ) * (1 - 0.4) + (cd.safetyScore : ℚ) * 0.4)
      let overall' := jsRound ((crime' : ℚ) * 0.6 + (localScore.lighting : ℚ) * 0.4)
      let s : SafetyScore := ⟨overall', crime', localScore.lighting⟩
      (s, s)
    else (localScore, localScore)

/-- The value computed by the Score Blender. -/
def blend (localScore : SafetyScore) (crimeData : Option Fbi.CoordEstimate) :
    SafetyScore :=
  (blendInPlace localScore crimeData).1

/-! ### Arithmetic helper lemmas about `jsRound` -/

theorem jsRound_eq {q : ℚ} {z : ℤ} (h1 : (z : ℚ) ≤ q + 1 / 2)
    (h2 : q + 1 / 2 < (z : ℚ) + 1) : jsRound q = z :=
  Int.floor_eq_iff.mpr ⟨h1, h2⟩

theorem jsRound_mono {a b : ℚ} (h : a ≤ b) : jsRound a ≤ jsRound b :=
  Int.floor_le_floor (by linarith)

theorem jsRound_le (x : ℚ) : (jsRound x : ℚ) ≤ x + 1 / 2 :=
  Int.floor_le _

theorem jsRound_gt (x : ℚ) : x - 1 / 2 < (jsRound x : ℚ) := by
  have := Int.lt_floor_add_one (x + 1 / 2)
  unfold jsRound
  push_cast at this ⊢
  linarith

/-- Two rationals within 1/2 of each other round to integers within 1 of
each other. -/
theorem jsRound_close {a b : ℚ} (h1 : b ≤ a + 1 / 2) (h2 : a - 1 / 2 ≤ b) :
    |jsRound b - jsRound a| ≤ 1 := by
  have hb1 : jsRound b ≤ ⌊a⌋ + 1 := by
    have : jsRound b ≤ ⌊a + 1⌋ := Int.floor_le_floor (by linarith)
    simpa [Int.floor_add_one] using this
  have hb2 : ⌊a⌋ ≤ jsRound b := Int.floor_le_floor (by linarith)
  have ha1 : jsRound a ≤ ⌊a⌋ + 1 := by
    have : jsRound a ≤ ⌊a + 1⌋ := Int.floor_le_floor (by linarith)
    simpa [Int.floor_add_one] using this
  have ha2 : ⌊a⌋ ≤ jsRound a := Int.floor_le_floor (by linarith)
  rw [abs_le]
  omega

/-! ### C8: null/empty route path -/

/-- C8: `calculateSafetyScore` applied to a null/absent path or to the empty
path returns exactly `{overall: 0, crime: 0, lighting: 0}` (and, being a
total function, never throws). -/
theorem calculateSafetyScore_null_empty :
    calculateSafetyScore none = ⟨0, 0, 0⟩
    ∧ calculateSafetyScore (some []) = ⟨0, 0, 0⟩ :=
  ⟨rfl, rfl⟩

/-! ### C4: route candidate generation -/

/-- C4: with both endpoints present, `generateMockRoutes` returns exactly 3
candidates, each path starting at the origin and ending at the destination
with exactly equal coordinate values, and no two candidates share a path;
with either endpoint null/absent, it returns the empty list. -/
theorem generateMockRoutes_spec :
    (∀ d, generateMockRoutes none d = [])
    ∧ (∀ o, generateMockRoutes o none = [])
    ∧ ∀ o d : Point,
        (generateMockRoutes (some o) (some d)).length = 3
        ∧ (∀ r ∈ generateMockRoutes (some o) (some d),
            r.path.head? = some o ∧ r.path.getLast? = some d)
        ∧ (generateMockRoutes (some o) (some d)).Pairwise
            (fun r₁ r₂ => r₁.path ≠ r₂.path) := by
  refine ⟨fun d => by cases d <;> rfl, fun o => by cases o <;> rfl, fun o d => ⟨rfl, ?_, ?_⟩⟩
  · intro r hr
    simp only [generateMockRoutes, List.mem_cons, List.not_mem_nil, or_false] at hr
    rcases hr with rfl | rfl | rfl <;> exact ⟨rfl, rfl⟩
  · refine List.Pairwise.cons ?_ (List.Pairwise.cons ?_ (List.pairwise_singleton _ _))
    · intro r hr
      simp only [List.mem_cons, List.not_mem_nil, or_false] at hr
      rcases hr with rfl | rfl <;>
        · intro h
          simp only [List.cons.injEq, Point.mk.injEq] at h
          have := h.2.1.1
          norm_num at this
    · intro r hr
      simp only [List.mem_cons, List.not_mem_nil, or_false] at hr
      subst hr
      intro h
      simp only [List.cons.injEq, Point.mk.injEq] at h
      have := h.2.1.1
      norm_num at this

/-! ### C2 and C3: the Score Blender -/

/-- A remote estimate whose only relevant field is `safetyScore`; the other
fields are zeroed. -/
def estWithScore (s : ℤ) : Fbi.CoordEstimate :=
  ⟨0, 0, 0, 0, 0, 0, 0, 0, 0, s⟩

/-- C2 counterexample: with a remote estimate present whose numeric
`safetyScore` is 0, the claim predicts a blended
`crime' = round(localScore.crime * (1-0.4) + 0 * 0.4) = 60`, but the code's
truthiness guard (`crimeData && crimeData.safetyScore`) treats 0 as absent
and returns the local score unchanged (`crime` stays 100). -/
theorem blend_zero_score_counterexample :
    (blend ⟨80, 100, 50⟩ (some (estWithScore 0))).crime ≠
      jsRound (((⟨80, 100, 50⟩ : SafetyScore).crime : ℚ) * (1 - 0.4)
        + (((estWithScore 0).safetyScore : ℤ) : ℚ) * 0.4) := by
  have h : jsRound (((⟨80, 100, 50⟩ : SafetyScore).crime : ℚ) * (1 - 0.4)
      + (((estWithScore 0).safetyScore : ℤ) : ℚ) * 0.4) = 60 :=
    jsRound_eq (by norm_num [estWithScore]) (by norm_num [estWithScore])
  rw [h, show blend ⟨80, 100, 50⟩ (some (estWithScore 0)) = ⟨80, 100, 50⟩ from rfl]
  decide

/-- C2 (amended): the blend returns `localScore` unchanged when the estimate
is null or its `safetyScore` is 0 (JavaScript-falsy); when `safetyScore` is a
nonzero number it returns the blended score
`{overall: round(crime'*0.6 + lighting*0.4), crime: crime', lighting}` with
`crime' = round(crime*(1-0.4) + safetyScore*0.4)`. -/
theorem blend_spec :
    (∀ L, blend L none = L)
    ∧ (∀ L E, E.safetyScore = 0 → blend L (some E) = L)
    ∧ ∀ L E, E.safetyScore ≠ 0 →
        blend L (some E) =
          ⟨ jsRound ((jsRound ((L.crime : ℚ) * (1 - 0.4) + (E.safetyScore : ℚ) * 0.4) : ℚ) * 0.6
              + (L.lighting : ℚ) * 0.4)
          , jsRound ((L.crime : ℚ) * (1 - 0.4) + (E.safetyScore : ℚ) * 0.4)
          , L.lighting ⟩ := by
  refine ⟨fun L => rfl, fun L E h => ?_, fun L E h => ?_⟩
  · simp [blend, blendInPlace, h]
  · simp [blend, blendInPlace, h]

/-- Witness for `blend_spec` at concrete inputs: a zero remote score leaves
the local score untouched; a remote score of 60 against local crime 100 and
lighting 50 yields `crime' = 84`, `overall' = 70`. -/
theorem blend_spec_witness :
    blend ⟨80, 100, 50⟩ (some (estWithScore 0)) = ⟨80, 100, 50⟩
    ∧ blend ⟨0, 100, 50⟩ (some (estWithScore 60)) = ⟨70, 84, 50⟩ := by
  constructor
  · exact blend_spec.2.1 ⟨80, 100, 50⟩ (estWithScore 0) rfl
  · rw [blend_spec.2.2 ⟨0, 100, 50⟩ (estWithScore 60) (by decide)]
    have h1 : jsRound (((⟨0, 100, 50⟩ : SafetyScore).crime : ℚ) * (1 - 0.4)
        + (((estWithScore 60).safetyScore : ℤ) : ℚ) * 0.4) = 84 :=
      jsRound_eq (by norm_num [estWithScore]) (by norm_num [estWithScore])
    rw [h1]
    have h2 : jsRound (((84 : ℤ) : ℚ) * 0.6 + (((⟨0, 100, 50⟩ : SafetyScore).lighting : ℤ) : ℚ) * 0.4) = 70 :=
      jsRound_eq (by norm_num) (by norm_num)
    rw [h2]

/-- C3 counterexample: the blend step mutates its `localScore` input.  For
`localScore = {overall:100, crime:100, lighting:100}` and a remote estimate
with `safetyScore = 50`, the `crime` field of the input object after the call
is `round(100*0.6 + 50*0.4) = 80`, not its original value 100. -/
theorem blend_mutates_counterexample :
    ((blendInPlace ⟨100, 100, 100⟩ (some (estWithScore 50))).2).crime ≠ (100 : ℤ) := by
  have h : ((blendInPlace ⟨100, 100, 100⟩ (some (estWithScore 50))).2).crime =
      jsRound ((100 : ℚ) * (1 - 0.4) + (50 : ℚ) * 0.4) := by
    norm_num [blendInPlace, estWithScore]
  rw [h, jsRound_eq (z := 80) (by norm_num) (by norm_num)]
  decide

/-- C3 (amended): the blend updates `localScore` in place: after the call
the input object always holds exactly the returned score (result and
post-call input state coincide), and the input keeps its original fields
precisely in the no-blend cases (estimate null, or `safetyScore` falsy). -/
theorem blendInPlace_aliasing :
    (∀ L cd, (blendInPlace L cd).2 = (blendInPlace L cd).1)
    ∧ (∀ L, (blendInPlace L none).2 = L)
    ∧ ∀ L E, E.safetyScore = 0 → (blendInPlace L (some E)).2 = L := by
  refine ⟨fun L cd => ?_, fun L => rfl, fun L E h => by simp [blendInPlace, h]⟩
  cases cd with
  | none => rfl
  | some cd =>
    by_cases h : cd.safetyScore ≠ 0 <;> simp [blendInPlace, h]

/-- Witness for `blendInPlace_aliasing` at concrete inputs. -/
theorem blendInPlace_aliasing_witness :
    (blendInPlace ⟨1, 2, 3⟩ (some (estWithScore 0))).2 = ⟨1, 2, 3⟩ :=
  blendInPlace_aliasing.2.2 ⟨1, 2, 3⟩ (estWithScore 0) rfl

/-! ### C5: the Remote Crime Estimator never propagates exceptions -/

/-- C5: `getCrimeStatsByLocation` resolves (never rethrows) for every fetch
outcome, and resolves to `null` on every failure mode (rejected promise,
non-success HTTP status, malformed payload); `getCrimeStatsByCoordinates`
resolves with an estimate for all inputs and random draws. -/
theorem fbi_estimator_no_throw :
    (∀ (α : Type) (f : FetchOutcome α), ∃ v, Fbi.getCrimeStatsByLocation f = .ok v)
    ∧ (∀ (α : Type) (f : FetchOutcome α),
        Fbi.fetchFailed f → Fbi.getCrimeStatsByLocation f = .ok none)
    ∧ ∀ (lat lng radius : ℚ) (rand : Fin 5 → ℚ),
        ∃ est, Fbi.getCrimeStatsByCoordinates lat lng radius rand = .ok (some est) := by
  refine ⟨fun α f => ?_, fun α f hf => ?_, fun lat lng radius rand => ⟨_, rfl⟩⟩
  · cases f with
    | rejected msg => exact ⟨none, rfl⟩
    | resolved ok status json =>
      cases ok with
      | false => exact ⟨none, rfl⟩
      | true =>
        cases json with
        | error e => exact ⟨none, rfl⟩
        | ok d => exact ⟨some d, rfl⟩
  · cases f with
    | rejected msg => rfl
    | resolved ok status json =>
      rcases hf with h | ⟨e, he⟩
      · subst h
        rfl
      · subst he
        cases ok with
        | false => rfl
        | true => rfl

/-- Witness for `fbi_estimator_no_throw`: a rejected fetch and a non-success
HTTP status both resolve to `null` without rethrowing. -/
theorem fbi_estimator_no_throw_witness :
    Fbi.getCrimeStatsByLocation (FetchOutcome.rejected (α := Nat) "network error") = .ok none
    ∧ Fbi.getCrimeStatsByLocation (FetchOutcome.resolved (α := Nat) false 500 (.ok 0)) = .ok none :=
  ⟨fbi_estimator_no_throw.2.1 Nat _ trivial,
   fbi_estimator_no_throw.2.1 Nat _ (Or.inl rfl)⟩

/-! ### C10: recommendations for an input with no stats at all -/

/-- C10: a non-null input without a nested `crimeStats` mapping and without
a `totalCrimeRate` yields exactly the baseline advisory followed by the
lower-crime reassurance advisory (a missing `totalCrimeRate` is read as 0,
which takes the `< 10` branch). -/
theorem recommendations_default_input :
    ∀ input : RecInput, input.crimeStats = none → input.totalCrimeRate = none →
      getSafetyRecommendations (some input) =
        [ "Stay aware of your surroundings at all times"
        , "This area generally has lower crime rates compared to surrounding areas" ] := by
  intro input h1 h2
  rcases input with ⟨cs, t⟩
  dsimp only at h1 h2
  subst h1
  subst h2
  rfl

/-- Witness for `recommendations_default_input` at the empty object `{}`. -/
theorem recommendations_default_input_witness :
    getSafetyRecommendations (some ⟨none, none⟩) =
      [ "Stay aware of your surroundings at all times"
      , "This area generally has lower crime rates compared to surrounding areas" ] :=
  recommendations_default_input ⟨none, none⟩ rfl rfl

/-! ### C7: recommendation threshold rules -/

/-- Membership in a conditional list whose else-branch is empty. -/
theorem mem_ite_nil {c : Prop} [Decidable c] (s : String) (l : List String) :
    (s ∈ if c then l else []) ↔ c ∧ s ∈ l := by
  by_cases h : c <;> simp [h]

/-- C7: whenever the nested `crimeStats` mapping has `robbery > 5`, the
result contains both robbery advisories; and the high-crime (`> 40`)
advisories and the low-crime (`< 10`) reassurance advisory never occur
together for the same input (the branches are an `else if`). -/
theorem recommendations_thresholds :
    ∀ input : RecInput,
      (∀ cats, input.crimeStats = some cats → optGt cats.robbery 5 →
        "Avoid displaying expensive items in public" ∈ getSafetyRecommendations (some input)
        ∧ "Stay in well-lit areas at night" ∈ getSafetyRecommendations (some input))
      ∧ ¬("Consider alternate routes if possible" ∈ getSafetyRecommendations (some input)
          ∧ "This area generally has lower crime rates compared to surrounding areas"
            ∈ getSafetyRecommendations (some input)) := by
  intro input
  rcases input with ⟨cs, t⟩
  constructor
  · intro cats hcs hrob
    dsimp only at hcs
    subst hcs
    simp only [getSafetyRecommendations]
    constructor <;> simp [hrob]
  · rintro ⟨h1, h2⟩
    rcases cs with _ | cats <;>
      by_cases h40 : (40 : ℚ) < t.getD 0 <;>
        simp [getSafetyRecommendations, h40, mem_ite_nil] at h1 h2

/-- Witness for `recommendations_thresholds`: a `robbery` rate of 8 forces
both robbery advisories into the output. -/
theorem recommendations_thresholds_witness :
    "Avoid displaying expensive items in public" ∈
      getSafetyRecommendations (some ⟨some ⟨none, none, some 8⟩, some 0⟩)
    ∧ "Stay in well-lit areas at night" ∈
      getSafetyRecommendations (some ⟨some ⟨none, none, some 8⟩, some 0⟩) :=
  (recommendations_thresholds ⟨some ⟨none, none, some 8⟩, some 0⟩).1
    ⟨none, none, some 8⟩ rfl (by norm_num [optGt])

/-! ### Lighting sub-score lemmas (C6, C9) -/

/-- Unfolding of `calculateSafetyScore` on a non-empty path. -/
theorem calculateSafetyScore_some_eq (p : List Point) (hp : p ≠ []) :
    calculateSafetyScore (some p) =
      ⟨ jsRound (max 0 (min 100 (100 - (p.map pointCrimeScore).sum / (p.length : ℚ) * 100)) * 0.6
          + max 0 (min 100 ((p.map pointLightingScore).sum / (p.length : ℚ) * 100)) * 0.4)
      , jsRound (max 0 (min 100 (100 - (p.map pointCrimeScore).sum / (p.length : ℚ) * 100)))
      , jsRound (max 0 (min 100 ((p.map pointLightingScore).sum / (p.length : ℚ) * 100))) ⟩ := by
  have hlen : ¬ p.length = 0 := fun h => hp (List.length_eq_zero.mp h)
  simp only [calculateSafetyScore, if_neg hlen, if_pos (Nat.pos_of_ne_zero hlen)]

/-- A route point whose nearby lighting signals are all `high` (and which has
at least one in range) gets the per-point value 0.9. -/
theorem pointLightingScore_high (rp : Point)
    (hall : ∀ lp ∈ mockLightingData, lightNear rp lp → lp.level = .high)
    (hex : ∃ lp ∈ mockLightingData, lightNear rp lp) :
    pointLightingScore rp = 0.9 := by
  have h1 : ¬ lightNear rp ⟨37.774, -122.419, .low⟩ := by
    intro h
    have := hall ⟨37.774, -122.419, .low⟩ (by simp [mockLightingData]) h
    simp at this
  have h2 : ¬ lightNear rp ⟨37.772, -122.416, .medium⟩ := by
    intro h
    have := hall ⟨37.772, -122.416, .medium⟩ (by simp [mockLightingData]) h
    simp at this
  have h3 : lightNear rp ⟨37.770, -122.413, .high⟩ := by
    rcases hex with ⟨lp, hmem, hnear⟩
    simp only [mockLightingData, List.mem_cons, List.not_mem_nil, or_false] at hmem
    rcases hmem with rfl | rfl | rfl
    · exact absurd hnear h1
    · exact absurd hnear h2
    · exact hnear
  simp only [pointLightingScore, pointLightingScoreOver, mockLightingData, List.foldl]
  rw [if_neg h1, if_neg h2, if_pos h3]
  simp only [updateLighting]
  norm_num [max_def]

/-- A route point whose nearby lighting signals are all `low` keeps the
default per-point value 0.5: a `low` signal never lowers the 0.5 baseline. -/
theorem pointLightingScore_low (rp : Point)
    (hall : ∀ lp ∈ mockLightingData, lightNear rp lp → lp.level = .low) :
    pointLightingScore rp = 0.5 := by
  have h2 : ¬ lightNear rp ⟨37.772, -122.416, .medium⟩ := by
    intro h
    have := hall ⟨37.772, -122.416, .medium⟩ (by simp [mockLightingData]) h
    simp at this
  have h3 : ¬ lightNear rp ⟨37.770, -122.413, .high⟩ := by
    intro h
    have := hall ⟨37.770, -122.413, .high⟩ (by simp [mockLightingData]) h
    simp at this
  simp only [pointLightingScore, pointLightingScoreOver, mockLightingData, List.foldl]
  rw [if_neg h2, if_neg h3]
  by_cases h1 : lightNear rp ⟨37.774, -122.419, .low⟩
  · rw [if_pos h1]
    simp only [updateLighting]
    norm_num [max_def]
  · rw [if_neg h1]

/-- Sum of a function constant on a list. -/
theorem sum_map_const (f : Point → ℚ) (c : ℚ) :
    ∀ p : List Point, (∀ pt ∈ p, f pt = c) → (p.map f).sum = c * p.length := by
  intro p
  induction p with
  | nil => simp
  | cons a l ih =>
    intro h
    simp only [List.map_cons, List.sum_cons, List.length_cons]
    rw [h a (by simp), ih (fun pt hpt => h pt (by simp [hpt]))]
    push_cast
    ring

/-- Lighting sub-score of a path whose points all share the per-point
value `c ∈ [0,1]`. -/
theorem lighting_of_const (p : List Point) (hp : p ≠ []) (c : ℚ)
    (hc : ∀ pt ∈ p, pointLightingScore pt = c) (h0 : 0 ≤ c) (h1 : c ≤ 1) :
    (calculateSafetyScore (some p)).lighting = jsRound (c * 100) := by
  rw [calculateSafetyScore_some_eq p hp]
  dsimp only
  rw [sum_map_const pointLightingScore c p hc]
  have hn : (0 : ℚ) < (p.length : ℚ) := by
    exact_mod_cast Nat.pos_of_ne_zero (fun h => hp (List.length_eq_zero.mp h))
  rw [mul_div_assoc, div_self (ne_of_gt hn), mul_one]
  rw [min_eq_right (by linarith), max_eq_right (by linarith)]

/-! ### C6: lighting monotonicity between all-high and all-low paths -/

/-- C6: if every point of the (non-empty, per the `Path` data model) first
path is within the lighting threshold only of `high`-level signal points
(with at least one in range per point), and every point of the equal-length
second path only of `low`-level signal points (at least one in range per
point), then the first path's lighting sub-score is strictly higher. -/
theorem lighting_monotone_high_low :
    ∀ p₁ p₂ : List Point, p₁ ≠ [] → p₁.length = p₂.length →
      (∀ pt ∈ p₁, (∀ lp ∈ mockLightingData, lightNear pt lp → lp.level = .high)
        ∧ ∃ lp ∈ mockLightingData, lightNear pt lp) →
      (∀ pt ∈ p₂, (∀ lp ∈ mockLightingData, lightNear pt lp → lp.level = .low)
        ∧ ∃ lp ∈ mockLightingData, lightNear pt lp) →
      (calculateSafetyScore (some p₂)).lighting <
        (calculateSafetyScore (some p₁)).lighting := by
  intro p₁ p₂ hp1 hlen h1 h2
  have hp2 : p₂ ≠ [] := by
    intro h
    rw [h] at hlen
    simp only [List.length_nil, List.length_eq_zero] at hlen
    exact hp1 hlen
  rw [lighting_of_const p₁ hp1 0.9
      (fun pt hpt => pointLightingScore_high pt (h1 pt hpt).1 (h1 pt hpt).2)
      (by norm_num) (by norm_num),
    lighting_of_const p₂ hp2 0.5
      (fun pt hpt => pointLightingScore_low pt (h2 pt hpt).1)
      (by norm_num) (by norm_num)]
  rw [jsRound_eq (z := 50) (by norm_num) (by norm_num),
    jsRound_eq (z := 90) (by norm_num) (by norm_num)]
  decide

/-- Witness for `lighting_monotone_high_low`: the single-point path near the
`high` signal at `(37.770, -122.413)` beats the single-point path near the
`low` signal at `(37.774, -122.419)`. -/
theorem lighting_monotone_high_low_witness :
    (calculateSafetyScore (some [⟨37.777, -122.422⟩])).lighting <
      (calculateSafetyScore (some [⟨37.767, -122.410⟩])).lighting := by
  refine lighting_monotone_high_low [⟨37.767, -122.410⟩] [⟨37.777, -122.422⟩]
    (by simp) rfl ?_ ?_
  · intro pt hpt
    simp only [List.mem_singleton] at hpt
    subst hpt
    constructor
    · intro lp hlp
      fin_cases hlp
      · intro h
        exfalso
        revert h
        norm_num [lightNear, distSq]
      · intro h
        exfalso
        revert h
        norm_num [lightNear, distSq]
      · intro h
        rfl
    · exact ⟨⟨37.770, -122.413, .high⟩, by simp [mockLightingData],
        by norm_num [lightNear, distSq]⟩
  · intro pt hpt
    simp only [List.mem_singleton] at hpt
    subst hpt
    constructor
    · intro lp hlp
      fin_cases hlp
      · intro h
        rfl
      · intro h
        exfalso
        revert h
        norm_num [lightNear, distSq]
      · intro h
        exfalso
        revert h
        norm_num [lightNear, distSq]
    · exact ⟨⟨37.774, -122.419, .low⟩, by simp [mockLightingData],
        by norm_num [lightNear, distSq]⟩

/-! ### C9: range of the lighting sub-score; `low` signals are no-ops -/

/-- `updateLighting` keeps the per-point value inside `[0.5, 0.9]`. -/
theorem updateLighting_bounds (cur : ℚ) (lp : LightPoint)
    (h1 : 0.5 ≤ cur) (h2 : cur ≤ 0.9) :
    0.5 ≤ updateLighting cur lp ∧ updateLighting cur lp ≤ 0.9 := by
  cases h : lp.level <;> simp only [updateLighting, h] <;>
    exact ⟨le_trans h1 (le_max_left _ _), max_le h2 (by norm_num)⟩

/-- The lighting fold keeps its accumulator inside `[0.5, 0.9]`. -/
theorem foldLight_bounds (rp : Point) :
    ∀ (store : List LightPoint) (cur : ℚ), 0.5 ≤ cur → cur ≤ 0.9 →
      0.5 ≤ store.foldl
          (fun cur lp => if lightNear rp lp then updateLighting cur lp else cur) cur
      ∧ store.foldl
          (fun cur lp => if lightNear rp lp then updateLighting cur lp else cur) cur ≤ 0.9 := by
  intro store
  induction store with
  | nil => exact fun cur h1 h2 => ⟨h1, h2⟩
  | cons lp rest ih =>
    intro cur h1 h2
    simp only [List.foldl_cons]
    by_cases h : lightNear rp lp
    · rw [if_pos h]
      exact ih _ (updateLighting_bounds cur lp h1 h2).1 (updateLighting_bounds cur lp h1 h2).2
    · rw [if_neg h]
      exact ih cur h1 h2

/-- Every route point's lighting value lies in `[0.5, 0.9]`. -/
theorem pointLightingScore_bounds (rp : Point) :
    0.5 ≤ pointLightingScore rp ∧ pointLightingScore rp ≤ 0.9 :=
  foldLight_bounds rp mockLightingData 0.5 (by norm_num) (by norm_num)

/-- Sum bounds from pointwise bounds. -/
theorem sum_map_bounds (f : Point → ℚ) (a b : ℚ) :
    ∀ p : List Point, (∀ pt ∈ p, a ≤ f pt ∧ f pt ≤ b) →
      a * p.length ≤ (p.map f).sum ∧ (p.map f).sum ≤ b * p.length := by
  intro p
  induction p with
  | nil => simp
  | cons x l ih =>
    intro h
    have hx := h x (by simp)
    have hl := ih (fun pt hpt => h pt (by simp [hpt]))
    simp only [List.map_cons, List.sum_cons, List.length_cons]
    push_cast
    constructor <;> linarith [hx.1, hx.2, hl.1, hl.2]

/-- C9: for every non-empty path the lighting sub-score lies in `[50, 90]`;
and `low`-level signal points never change a per-point lighting value at
all — filtering them out of the store leaves every per-point value intact
(their 0.3 floor is absorbed by the 0.5 baseline through `max`). -/
theorem lighting_range_and_low_irrelevant :
    (∀ p : List Point, p ≠ [] →
      50 ≤ (calculateSafetyScore (some p)).lighting
      ∧ (calculateSafetyScore (some p)).lighting ≤ 90)
    ∧ ∀ rp : Point,
        pointLightingScoreOver mockLightingData rp =
          pointLightingScoreOver
            (mockLightingData.filter fun lp => lp.level ≠ LightLevel.low) rp := by
  constructor
  · intro p hp
    rw [calculateSafetyScore_some_eq p hp]
    dsimp only
    have hn : (0 : ℚ) < (p.length : ℚ) := by
      exact_mod_cast Nat.pos_of_ne_zero (fun h => hp (List.length_eq_zero.mp h))
    have hsum := sum_map_bounds pointLightingScore 0.5 0.9 p
      (fun pt _ => pointLightingScore_bounds pt)
    set s := (p.map pointLightingScore).sum with hs
    have hv1 : 50 ≤ s / (p.length : ℚ) * 100 := by
      rw [div_mul_eq_mul_div, le_div_iff₀ hn]
      nlinarith [hsum.1]
    have hv2 : s / (p.length : ℚ) * 100 ≤ 90 := by
      rw [div_mul_eq_mul_div, div_le_iff₀ hn]
      nlinarith [hsum.2]
    rw [min_eq_right (by linarith), max_eq_right (by linarith)]
    constructor
    · have := jsRound_mono hv1
      rwa [jsRound_eq (q := (50 : ℚ)) (z := 50) (by norm_num) (by norm_num)] at this
    · have := jsRound_mono hv2
      rwa [jsRound_eq (q := (90 : ℚ)) (z := 90) (by norm_num) (by norm_num)] at this
  · intro rp
    have hfil : mockLightingData.filter (fun lp => lp.level ≠ LightLevel.low) =
        [⟨37.772, -122.416, .medium⟩, ⟨37.770, -122.413, .high⟩] := rfl
    rw [hfil]
    simp only [pointLightingScoreOver, mockLightingData, List.foldl]
    by_cases h1 : lightNear rp ⟨37.774, -122.419, .low⟩
    · rw [if_pos h1]
      have : updateLighting 0.5 ⟨37.774, -122.419, .low⟩ = 0.5 := by
        simp only [updateLighting]
        norm_num [max_def]
      rw [this]
    · rw [if_neg h1]

/-- Witness for `lighting_range_and_low_irrelevant` on the one-point path at
the origin of the coordinate grid (far from all signals). -/
theorem lighting_range_witness :
    50 ≤ (calculateSafetyScore (some [⟨0, 0⟩])).lighting
    ∧ (calculateSafetyScore (some [⟨0, 0⟩])).lighting ≤ 90 :=
  lighting_range_and_low_irrelevant.1 [⟨0, 0⟩] (by simp)

/-! ### C1: the overall/crime/lighting rounding identity -/

/-- Rounding the sub-scores first moves the 60/40 blend by at most 1/2, so
the re-rounded blend is within 1 of the `overall` field. -/
theorem jsRound_double_round (x y : ℚ) :
    |jsRound ((jsRound x : ℚ) * 0.6 + (jsRound y : ℚ) * 0.4)
      - jsRound (x * 0.6 + y * 0.4)| ≤ 1 := by
  have hx1 := jsRound_le x
  have hx2 := jsRound_gt x
  have hy1 := jsRound_le y
  have hy2 := jsRound_gt y
  exact jsRound_close (by linarith) (by linarith)

/-- The path point exhibiting the double-rounding counterexample:
`1132747/30000 = 37.76823333...`, due south of the crime point
`(37.768, -122.410)` at distance exactly `293/30000 ≈ 0.009767` degrees. -/
def cexPoint : Point := ⟨1132747/30000, -122.410⟩

/-- A crime point outside the 0.01 threshold leaves the accumulator
unchanged. -/
theorem crimeStep_out {p : Point} {c : CrimePoint} (a : ℚ)
    (h : ¬ (distSq p.lat p.lng c.lat c.lng < (0.01 : ℚ) ^ 2)) :
    crimeStep p a c = a := by
  simp [crimeStep, h]

/-- Peeling one element off a left fold when the step value is known. -/
theorem foldl_step_eq {α β : Type} (f : β → α → β) (c : α) (l : List α) {a b : β}
    (h : f a c = b) : List.foldl f a (c :: l) = List.foldl f b l := by
  rw [List.foldl_cons, h]

/-- At `cexPoint` exactly one crime signal (the weight-0.3 point at
`(37.768, -122.410)`) is within the 0.01 threshold, at the exact rational
distance `293/30000`, giving the contribution
`0.3 * (1 - (293/30000)*100) = 0.007`. -/
theorem pointCrimeScore_cexPoint : pointCrimeScore cexPoint = 7/1000 := by
  have hlast : crimeStep cexPoint 0 ⟨37.768, -122.410, 0.3⟩ = 7/1000 := by
    simp only [crimeStep]
    rw [if_pos (by norm_num [cexPoint, distSq])]
    rw [show distSq cexPoint.lat cexPoint.lng
          ((⟨37.768, -122.410, 0.3⟩ : CrimePoint)).lat
          ((⟨37.768, -122.410, 0.3⟩ : CrimePoint)).lng
        = (293/30000 : ℚ) * (293/30000) by norm_num [cexPoint, distSq]]
    rw [Rat.sqrt_eq, abs_of_pos (by norm_num)]
    norm_num
  simp only [pointCrimeScore, mockCrimeData]
  refine (foldl_step_eq _ _ _ (crimeStep_out 0 (by norm_num [cexPoint, distSq]))).trans ?_
  refine (foldl_step_eq _ _ _ (crimeStep_out 0 (by norm_num [cexPoint, distSq]))).trans ?_
  refine (foldl_step_eq _ _ _ (crimeStep_out 0 (by norm_num [cexPoint, distSq]))).trans ?_
  refine (foldl_step_eq _ _ _ (crimeStep_out 0 (by norm_num [cexPoint, distSq]))).trans ?_
  refine (foldl_step_eq _ _ _ (crimeStep_out 0 (by norm_num [cexPoint, distSq]))).trans ?_
  refine (foldl_step_eq _ _ _ (crimeStep_out 0 (by norm_num [cexPoint, distSq]))).trans ?_
  refine (foldl_step_eq _ _ _ (crimeStep_out 0 (by norm_num [cexPoint, distSq]))).trans ?_
  refine (foldl_step_eq _ _ _ (crimeStep_out 0 (by norm_num [cexPoint, distSq]))).trans ?_
  refine (foldl_step_eq _ _ _ hlast).trans ?_
  rw [List.foldl_nil]

/-- No lighting signal is within the 0.005 threshold of `cexPoint`. -/
theorem pointLightingScore_cexPoint : pointLightingScore cexPoint = 0.5 := by
  apply pointLightingScore_low
  intro lp hlp
  fin_cases hlp <;>
    · intro h
      exfalso
      revert h
      norm_num [lightNear, distSq, cexPoint]

/-- The full score at the one-point path `[cexPoint]`: the unrounded
sub-scores are crime `99.3` and lighting `50`, so `overall =
round(99.3*0.6 + 50*0.4) = round(79.58) = 80` while the fields round to
`crime = 99`, `lighting = 50`. -/
theorem calculateSafetyScore_cexPoint :
    calculateSafetyScore (some [cexPoint]) = ⟨80, 99, 50⟩ := by
  rw [calculateSafetyScore_some_eq [cexPoint] (by simp)]
  have hs1 : ([cexPoint].map pointCrimeScore).sum = 7/1000 := by
    simp [pointCrimeScore_cexPoint]
  have hs2 : ([cexPoint].map pointLightingScore).sum = 1/2 := by
    rw [show ([cexPoint].map pointLightingScore) = [pointLightingScore cexPoint] from rfl]
    rw [pointLightingScore_cexPoint]
    norm_num
  rw [hs1, hs2]
  simp only [List.length_cons, List.length_nil, Nat.cast_one, SafetyScore.mk.injEq]
  refine ⟨?_, ?_, ?_⟩ <;>
    exact jsRound_eq (by norm_num [min_def, max_def]) (by norm_num [min_def, max_def])

/-- C1 counterexample: at the one-point path `[cexPoint]` the returned score
is `{overall: 80, crime: 99, lighting: 50}`, but
`round(crime*0.6 + lighting*0.4) = round(79.4) = 79 ≠ 80`: the code computes
`overall` from the unrounded sub-scores, so the claimed identity over the
returned (rounded) fields fails. -/
theorem overall_double_rounding_counterexample :
    (calculateSafetyScore (some [cexPoint])).overall ≠
      jsRound (((calculateSafetyScore (some [cexPoint])).crime : ℚ) * 0.6
        + ((calculateSafetyScore (some [cexPoint])).lighting : ℚ) * 0.4) := by
  rw [calculateSafetyScore_cexPoint]
  dsimp only
  rw [jsRound_eq (z := 79) (by norm_num) (by norm_num)]
  decide

/-- C1 (amended): `overall` is the rounding of `crimeRaw*0.6 +
lightingRaw*0.4` over the unrounded clamped sub-scores; consequently it is
always within 1 of `round(crime*0.6 + lighting*0.4)` computed from the
returned rounded fields, but the exact identity can fail (see the
counterexample). -/
theorem overall_within_one_of_rounded_blend :
    ∀ rp : Option (List Point),
      |jsRound (((calculateSafetyScore rp).crime : ℚ) * 0.6
          + ((calculateSafetyScore rp).lighting : ℚ) * 0.4)
        - (calculateSafetyScore rp).overall| ≤ 1 := by
  intro rp
  match rp with
  | none =>
    show |jsRound (((0 : ℤ) : ℚ) * 0.6 + ((0 : ℤ) : ℚ) * 0.4) - (0 : ℤ)| ≤ 1
    rw [jsRound_eq (z := 0) (by norm_num) (by norm_num)]
    decide
  | some p =>
    rcases eq_or_ne p [] with rfl | hp
    · show |jsRound (((0 : ℤ) : ℚ) * 0.6 + ((0 : ℤ) : ℚ) * 0.4) - (0 : ℤ)| ≤ 1
      rw [jsRound_eq (z := 0) (by norm_num) (by norm_num)]
      decide
    · rw [calculateSafetyScore_some_eq p hp]
      exact jsRound_double_round _ _

/-- Witness for `generateMockRoutes_spec`: the first candidate between
`(0,0)` and `(1,1)` starts at the origin and ends at the destination. -/
theorem generateMockRoutes_spec_witness :
    ((⟨"route-1", "Recommended Route", "12 min", "1.2 mi",
        [⟨0, 0⟩, ⟨0.003, 0.002⟩, ⟨0.005, 0.005⟩, ⟨0.998, 0.997⟩, ⟨1, 1⟩]⟩ : Route)).path.head?
      = some ⟨0, 0⟩
    ∧ ((⟨"route-1", "Recommended Route", "12 min", "1.2 mi",
        [⟨0, 0⟩, ⟨0.003, 0.002⟩, ⟨0.005, 0.005⟩, ⟨0.998, 0.997⟩, ⟨1, 1⟩]⟩ : Route)).path.getLast?
      = some ⟨1, 1⟩ :=
  (generateMockRoutes_spec.2.2 ⟨0, 0⟩ ⟨1, 1⟩).2.1 _ (by norm_num [generateMockRoutes])
